import Mathlib

/-
Verification of the youtubeagent Flask front-end (src/youtubeagent/app.py).

The file embeds the single route handler `index`, the module-level `crew`
configuration and the route table, and proves the behavioural properties of
the handler: form validation, success rendering, the default for a missing
output key, exception catching, invocation counting and determinism.
-/

namespace YoutubeAgent

/-- HTTP method of an incoming request; the single route accepts GET and POST. -/
inductive Method
  | GET
  | POST
deriving DecidableEq, Repr

/-- An incoming HTTP request: its method, the form-encoded body fields, and
the remaining request data (headers and the like) that the handler never
reads. -/
structure Request where
  method : Method
  form : List (String × String)
  headers : List (String × String)
deriving Repr

/-- `request.form.get(key)`: the value of the first form field named `key`,
or `none` when the field is absent. -/
def formGet (form : List (String × String)) (key : String) : Option String :=
  (form.find? (fun p => p.1 == key)).map (fun p => p.2)

/-- Python truthiness of the value of `request.form.get` as tested by
`if not topic:` in app.py line 29: `None` and the empty string are falsy,
every other string is truthy. -/
def isFalsy : Option String → Bool
  | none => true
  | some s => s == ""

/-- A value returned by `crew.kickoff`: either a mapping from output names to
string content, or some non-mapping value. Calling `.get` on a non-mapping
value raises an AttributeError; `getError` is the message of that error. -/
inductive PyValue
  | dict (entries : List (String × String))
  | nonMapping (getError : String)
deriving DecidableEq, Repr

/-- First-match association lookup, the semantics of a dictionary lookup. -/
def assocGet (entries : List (String × String)) (key : String) : Option String :=
  (entries.find? (fun p => p.1 == key)).map (fun p => p.2)

/-- `result.get(key, default)` in app.py line 37: a dictionary looks the key
up and falls back to the default; a non-mapping value raises. -/
def pyGet (v : PyValue) (key default : String) : Except String String :=
  match v with
  | .dict entries => .ok ((assocGet entries key).getD default)
  | .nonMapping getError => .error getError

/-- The page produced by `render_template`: the implicit 200 status of a
normal Flask response, the template name, and the keyword arguments passed. -/
structure Response where
  status : Nat
  template : String
  topic : Option String
  blog_content : Option String
  error : Option String
deriving DecidableEq, Repr

/-- A call of Flask `render_template` on the template `index.html` with the
three keyword arguments the handler ever passes. -/
def render_template (topic blog_content error : Option String) : Response :=
  { status := 200, template := "index.html", topic := topic,
    blog_content := blog_content, error := error }

/-- The collaborator interface: `crew.kickoff(inputs)` takes an input mapping
and either returns a value or raises an exception, modelled by the message
string of the exception. -/
abbrev RunFn := List (String × String) → Except String PyValue

/-- A renderer for the success page inside the `try` block: Flask rendering
may itself raise, so the type is fallible. -/
abbrev Renderer := Option String → Option String → Option String → Except String Response

/-- The concrete renderer of the deployed app: `render_template` succeeding
normally. -/
def flaskRender : Renderer := fun topic blog_content error =>
  .ok (render_template topic blog_content error)

/-- The body of the `try` block, app.py lines 32-39: call
`crew.kickoff(inputs={'topic': topic})`, extract
`result.get('write_task_output', "Blog generation failed.")` and render the
success page. Any exception raised by any of the three steps escapes as
`.error` and is caught by the handler. -/
def tryBlock (kickoff : RunFn) (render : Renderer) (topic : String) :
    Except String Response :=
  match kickoff [("topic", topic)] with
  | .error e => .error e
  | .ok result =>
      match pyGet result "write_task_output" "Blog generation failed." with
      | .error e => .error e
      | .ok blog_content => render (some topic) (some blog_content) none

/-- The route handler `index`, app.py lines 23-44, parameterised by the
collaborator and by the success-page renderer. Besides the response it
returns the list of argument mappings passed to `kickoff`, recording how
often and with which inputs the collaborator was invoked during the
request. -/
def indexWith (kickoff : RunFn) (render : Renderer) (req : Request) :
    Response × List (List (String × String)) :=
  match req.method with
  | .POST =>
      let topic := formGet req.form "topic"
      if isFalsy topic then
        (render_template none none (some "Please enter a topic."), [])
      else
        let t := topic.getD ""
        match tryBlock kickoff render t with
        | .ok resp => (resp, [[("topic", t)]])
        | .error e =>
            (render_template none none (some ("An error occurred: " ++ e)),
             [[("topic", t)]])
  | .GET => (render_template none none none, [])

/-- The handler as deployed: `indexWith` with the normal Flask renderer. -/
def index (kickoff : RunFn) (req : Request) :
    Response × List (List (String × String)) :=
  indexWith kickoff flaskRender req

/-- Execution mode of the crew, `Process.sequential` in app.py line 16. -/
inductive ProcessMode
  | sequential
  | hierarchical
deriving DecidableEq, Repr

/-- The constructor arguments of `Crew(...)`, app.py lines 13-21. Agents and
tasks are identified by the names imported in app.py lines 3-4. -/
structure CrewConfig where
  agents : List String
  tasks : List String
  process : ProcessMode
  memory : Bool
  cache : Bool
  max_rpm : Nat
  share_crew : Bool
deriving DecidableEq, Repr

/-- The module-level `crew` object, app.py lines 13-21: built exactly once
when the module loads, before the server starts handling requests, and never
reassigned afterwards. -/
def crew : CrewConfig :=
  { agents := ["blog_researcher", "blog_writer"]
    tasks := ["research_task", "write_task"]
    process := ProcessMode.sequential
    memory := true
    cache := true
    max_rpm := 100
    share_crew := true }

/-- The route table of the Flask app: the single route `/`, accepting GET and
POST, app.py line 23. -/
def routes : List (String × List Method) := [("/", [Method.GET, Method.POST])]

/-- A stub collaborator that returns a mapping with the expected output key. -/
def stubKickoff : RunFn := fun _ =>
  .ok (PyValue.dict [("write_task_output", "stub content")])

/-- A stub collaborator that raises. -/
def failingKickoff : RunFn := fun _ => .error "boom"

/-- A stub collaborator that returns a non-mapping value. -/
def nonMappingKickoff : RunFn := fun _ =>
  .ok (PyValue.nonMapping "str object has no attribute get")

/-- A stub collaborator that returns a mapping without the output key. -/
def keylessKickoff : RunFn := fun _ => .ok (PyValue.dict [("other", "x")])

/-- A renderer that raises while producing the success page. -/
def failingRender : Renderer := fun _ _ _ => .error "template failure"

/-- Unfolding the handler on a POST request with a truthy topic field. -/
theorem indexWith_post_truthy (kickoff : RunFn) (render : Renderer)
    (req : Request) (t : String)
    (hm : req.method = Method.POST)
    (ht : formGet req.form "topic" = some t) (hne : t ≠ "") :
    indexWith kickoff render req =
      match tryBlock kickoff render t with
      | .ok resp => (resp, [[("topic", t)]])
      | .error e =>
          (render_template none none (some ("An error occurred: " ++ e)),
           [[("topic", t)]]) := by
  have hf : isFalsy (formGet req.form "topic") = false := by
    rw [ht]; simp [isFalsy, hne]
  unfold indexWith
  rw [hm, ht]
  rw [ht] at hf
  simp only [hf, Bool.false_eq_true, if_false, Option.getD_some]

/-- C1: for every POST request with a non-empty topic, if `kickoff` returns
a mapping containing the key "write_task_output" with value S, the handler
renders the form with the submitted topic and with blog content S. -/
theorem post_success_renders_content (kickoff : RunFn) (req : Request)
    (t S : String) (entries : List (String × String))
    (hm : req.method = Method.POST)
    (ht : formGet req.form "topic" = some t) (hne : t ≠ "")
    (hk : kickoff [("topic", t)] = .ok (PyValue.dict entries))
    (hS : assocGet entries "write_task_output" = some S) :
    (index kickoff req).1 = render_template (some t) (some S) none := by
  rw [index, indexWith_post_truthy kickoff flaskRender req t hm ht hne]
  simp [tryBlock, hk, pyGet, hS, flaskRender]

/-- C1 witness: topic "cats" with a collaborator returning
write_task_output = "Cats are great." renders that content. -/
theorem post_success_renders_content_witness :
    (index (fun _ => .ok (PyValue.dict [("write_task_output", "Cats are great.")]))
        { method := Method.POST, form := [("topic", "cats")], headers := [] }).1
      = render_template (some "cats") (some "Cats are great.") none :=
  post_success_renders_content _ _ "cats" "Cats are great."
    [("write_task_output", "Cats are great.")] rfl rfl (by decide) rfl rfl

/-- C2 counterexample: a whitespace-only topic " " is truthy in Python
(app.py line 29 tests only `not topic`), so the handler does invoke the
collaborator and does not render the "Please enter a topic." error. -/
theorem whitespace_topic_not_rejected :
    (index stubKickoff
        { method := Method.POST, form := [("topic", " ")], headers := [] }).2 ≠ []
    ∧ (index stubKickoff
        { method := Method.POST, form := [("topic", " ")], headers := [] }).1.error
      ≠ some "Please enter a topic." := by
  constructor <;> decide

/-- C2 amended: for every POST request whose topic field is missing or empty
(Python-falsy), the handler renders the form with the error
"Please enter a topic." and no result, and `kickoff` is invoked zero times.
Whitespace-only topics are treated as non-empty and are not rejected. -/
theorem falsy_topic_renders_error (kickoff : RunFn) (req : Request)
    (hm : req.method = Method.POST)
    (ht : isFalsy (formGet req.form "topic") = true) :
    index kickoff req
      = (render_template none none (some "Please enter a topic."), []) := by
  rw [index]
  unfold indexWith
  rw [hm]
  simp only [ht, if_true]

/-- C2 witness: a POST with no topic field renders the error and makes no
collaborator call. -/
theorem falsy_topic_renders_error_witness :
    index stubKickoff { method := Method.POST, form := [], headers := [] }
      = (render_template none none (some "Please enter a topic."), []) :=
  falsy_topic_renders_error stubKickoff _ rfl rfl

/-- C3: when `kickoff` raises with message m on a non-empty topic, the
handler catches the exception and renders the form with the error
"An error occurred: " followed by m and no blog content. -/
theorem kickoff_error_caught (kickoff : RunFn) (req : Request) (t m : String)
    (hm : req.method = Method.POST)
    (ht : formGet req.form "topic" = some t) (hne : t ≠ "")
    (hk : kickoff [("topic", t)] = .error m) :
    (index kickoff req).1
      = render_template none none (some ("An error occurred: " ++ m)) := by
  rw [index, indexWith_post_truthy kickoff flaskRender req t hm ht hne]
  simp [tryBlock, hk]

/-- C3 witness: a raising collaborator yields the rendered error message. -/
theorem kickoff_error_caught_witness :
    (index failingKickoff
        { method := Method.POST, form := [("topic", "cats")], headers := [] }).1
      = render_template none none (some ("An error occurred: " ++ "boom")) :=
  kickoff_error_caught failingKickoff _ "cats" "boom" rfl rfl (by decide) rfl

/-- C4: when `kickoff` returns a mapping lacking the key "write_task_output"
on a non-empty topic, the handler renders the form with the default blog
content "Blog generation failed.". -/
theorem missing_key_renders_default (kickoff : RunFn) (req : Request)
    (t : String) (entries : List (String × String))
    (hm : req.method = Method.POST)
    (ht : formGet req.form "topic" = some t) (hne : t ≠ "")
    (hk : kickoff [("topic", t)] = .ok (PyValue.dict entries))
    (hS : assocGet entries "write_task_output" = none) :
    (index kickoff req).1
      = render_template (some t) (some "Blog generation failed.") none := by
  rw [index, indexWith_post_truthy kickoff flaskRender req t hm ht hne]
  simp [tryBlock, hk, pyGet, hS, flaskRender]

/-- C4 witness: a mapping without the output key yields the default text. -/
theorem missing_key_renders_default_witness :
    (index keylessKickoff
        { method := Method.POST, form := [("topic", "cats")], headers := [] }).1
      = render_template (some "cats") (some "Blog generation failed.") none :=
  missing_key_renders_default keylessKickoff _ "cats" [("other", "x")]
    rfl rfl (by decide) rfl rfl

/-- C5: every GET request renders the empty form (no topic, no blog content,
no error) and `kickoff` is invoked zero times. -/
theorem get_renders_empty_form (kickoff : RunFn) (req : Request)
    (hm : req.method = Method.GET) :
    index kickoff req = (render_template none none none, []) := by
  rw [index]
  unfold indexWith
  rw [hm]

/-- C5 witness: a concrete GET request renders the empty form. -/
theorem get_renders_empty_form_witness :
    index stubKickoff { method := Method.GET, form := [("topic", "cats")], headers := [] }
      = (render_template none none none, []) :=
  get_renders_empty_form stubKickoff _ rfl

/-- C6: the crew is a single module-level constant, built once at import
time before any request is served, with exactly the fixed configuration:
ordered agents [blog_researcher, blog_writer], ordered tasks
[research_task, write_task], sequential process, memory enabled, cache
enabled, max_rpm 100 and share_crew set; as a constant it is never
mutated. -/
theorem crew_config_fixed :
    crew.agents = ["blog_researcher", "blog_writer"]
    ∧ crew.tasks = ["research_task", "write_task"]
    ∧ crew.process = ProcessMode.sequential
    ∧ crew.memory = true
    ∧ crew.cache = true
    ∧ crew.max_rpm = 100
    ∧ crew.share_crew = true := by
  refine ⟨rfl, rfl, rfl, rfl, rfl, rfl, rfl⟩

/-- C7: every POST request with a non-empty topic invokes `kickoff` exactly
once, with the single input mapping {"topic": topic}; the handler is a pure
synchronous function of one request, so no retry, queue or background call
can occur. -/
theorem nonempty_topic_invokes_once (kickoff : RunFn) (req : Request)
    (t : String)
    (hm : req.method = Method.POST)
    (ht : formGet req.form "topic" = some t) (hne : t ≠ "") :
    (index kickoff req).2 = [[("topic", t)]] := by
  rw [index, indexWith_post_truthy kickoff flaskRender req t hm ht hne]
  cases tryBlock kickoff flaskRender t <;> rfl

/-- C7 witness: a concrete non-empty topic produces exactly one invocation
with the expected input mapping. -/
theorem nonempty_topic_invokes_once_witness :
    (index stubKickoff
        { method := Method.POST, form := [("topic", "cats")], headers := [] }).2
      = [[("topic", "cats")]] :=
  nonempty_topic_invokes_once stubKickoff _ "cats" rfl rfl (by decide)

/-- C8: every request, whatever its method, topic value or collaborator
behaviour, gets a rendered index.html page with status 200, and the app
serves only the route "/". -/
theorem always_renders_form_ok (kickoff : RunFn) (req : Request) :
    ((index kickoff req).1.status = 200
      ∧ (index kickoff req).1.template = "index.html")
    ∧ routes = [("/", [Method.GET, Method.POST])] := by
  refine ⟨?_, rfl⟩
  rw [index]
  unfold indexWith
  cases hm : req.method with
  | GET => exact ⟨rfl, rfl⟩
  | POST =>
      simp only []
      by_cases hf : isFalsy (formGet req.form "topic") = true
      · simp only [hf, if_true]; exact ⟨rfl, rfl⟩
      · simp only [hf, if_false]
        unfold tryBlock
        cases hk : kickoff [("topic", (formGet req.form "topic").getD "")] with
        | error e => exact ⟨rfl, rfl⟩
        | ok result =>
            cases result with
            | dict entries => exact ⟨rfl, rfl⟩
            | nonMapping getError => exact ⟨rfl, rfl⟩

/-- C9: the except clause covers the whole try block, not just the
orchestration call. First part: when the kickoff result is not a mapping,
the AttributeError raised by the extraction is caught and rendered. Second
part: when the success-page renderer itself raises, that exception is caught
and rendered the same way. -/
theorem try_scope_covers_extraction_and_render :
    (∀ (kickoff : RunFn) (render : Renderer) (req : Request) (t msg : String),
      req.method = Method.POST →
      formGet req.form "topic" = some t → t ≠ "" →
      kickoff [("topic", t)] = .ok (PyValue.nonMapping msg) →
      (indexWith kickoff render req).1
        = render_template none none (some ("An error occurred: " ++ msg)))
    ∧ (∀ (kickoff : RunFn) (render : Renderer) (req : Request)
        (t bc m : String) (entries : List (String × String)),
      req.method = Method.POST →
      formGet req.form "topic" = some t → t ≠ "" →
      kickoff [("topic", t)] = .ok (PyValue.dict entries) →
      (assocGet entries "write_task_output").getD "Blog generation failed." = bc →
      render (some t) (some bc) none = .error m →
      (indexWith kickoff render req).1
        = render_template none none (some ("An error occurred: " ++ m))) := by
  constructor
  · intro kickoff render req t msg hm ht hne hk
    rw [indexWith_post_truthy kickoff render req t hm ht hne]
    simp [tryBlock, hk, pyGet]
  · intro kickoff render req t bc m entries hm ht hne hk hbc hr
    rw [indexWith_post_truthy kickoff render req t hm ht hne]
    simp [tryBlock, hk, pyGet, hbc, hr]

/-- C9 witness: the two failure points at concrete inputs — a non-mapping
kickoff result, and a renderer that raises on the success page. -/
theorem try_scope_covers_extraction_and_render_witness :
    (indexWith nonMappingKickoff flaskRender
        { method := Method.POST, form := [("topic", "cats")], headers := [] }).1
      = render_template none none
          (some ("An error occurred: " ++ "str object has no attribute get"))
    ∧ (indexWith stubKickoff failingRender
        { method := Method.POST, form := [("topic", "cats")], headers := [] }).1
      = render_template none none
          (some ("An error occurred: " ++ "template failure")) :=
  ⟨try_scope_covers_extraction_and_render.1 nonMappingKickoff flaskRender _
      "cats" "str object has no attribute get" rfl rfl (by decide) rfl,
   try_scope_covers_extraction_and_render.2 stubKickoff failingRender _
      "cats" "stub content" "template failure"
      [("write_task_output", "stub content")] rfl rfl (by decide) rfl rfl rfl⟩

/-- C10: the handler is deterministic and its response depends only on the
request method and the topic form field: two requests agreeing on those
(whatever their headers or other form fields) get identical responses under
the same collaborator. -/
theorem handler_deterministic (kickoff : RunFn) (r1 r2 : Request)
    (hm : r1.method = r2.method)
    (ht : formGet r1.form "topic" = formGet r2.form "topic") :
    index kickoff r1 = index kickoff r2 := by
  rw [index, index]
  unfold indexWith
  rw [hm, ht]

/-- C10 witness: two requests differing in headers and extra form fields but
agreeing on method and topic get the same response. -/
theorem handler_deterministic_witness :
    index stubKickoff
        { method := Method.POST,
          form := [("topic", "cats"), ("other", "a")],
          headers := [("X-Trace", "1")] }
      = index stubKickoff
        { method := Method.POST,
          form := [("topic", "cats")],
          headers := [] } :=
  handler_deterministic stubKickoff _ _ rfl rfl

end YoutubeAgent
